import Mathlib

/-!
Verification of the DOM-heuristic accessibility checks and client-error
aggregation fixtures of the `a11y` test-suite repository.

The TypeScript functions are shallowly embedded: each check is a pure
function over the data it reads from the page (heading levels, image
attributes, ARIA roles, focusable-element counts, client events), and the
statements below settle the specified properties against those embeddings.
-/

namespace A11y

/-! ### Heading hierarchy check (`BasePage.checkHeadingHierarchy`,
`TestHelpers.checkHeadingHierarchy`)

The page code collects the tag names of all `h1`–`h6` elements in document
order and parses each into a numeric level.  The check below receives that
list of levels. -/

structure HeadingHierarchyResult where
  isValid : Bool
  issues : List String
  deriving Repr, DecidableEq

def firstHeadingMsg : String := "First heading should be h1-h3"

def headingJumpMsg (prev cur : Nat) : String :=
  s!"Heading levels should not skip more than one level ({prev} -> {cur})"

/-- The inner loop of `checkHeadingHierarchy`: for each consecutive pair of
heading levels, in document order, push an issue when the absolute
difference exceeds 2 (`diff = headingLevels[i] - headingLevels[i-1]`,
`Math.abs(diff) > 2`). -/
def pairwiseJumpIssues : List Nat → List String
  | [] => []
  | [_] => []
  | a :: b :: rest =>
      (if 2 < ((b : Int) - (a : Int)).natAbs then [headingJumpMsg a b] else [])
        ++ pairwiseJumpIssues (b :: rest)

/-- The check `checkHeadingHierarchy` over the list of heading levels in document
order: when the list is non-empty, flag the first heading if its level
exceeds 3, then flag every consecutive jump of more than two levels;
`isValid` is `issues.length === 0`. -/
def checkHeadingHierarchy (headingLevels : List Nat) : HeadingHierarchyResult :=
  let issues :=
    match headingLevels with
    | [] => []
    | first :: _ =>
        (if 3 < first then [firstHeadingMsg] else []) ++ pairwiseJumpIssues headingLevels
  { isValid := issues.length == 0, issues := issues }

/-! ### Image accessibility check (`BasePage.checkImageAccessibility`,
`TestHelpers.checkImageAccessibility`)

The page code reads, for every `img` element, its `alt` and `role`
attributes (`getAttribute` yields `null` when absent, modelled as
`Option String`). -/

structure ImgAttrs where
  alt : Option String
  role : Option String
  deriving Repr, DecidableEq

/-- JavaScript `String.prototype.trim`: strip leading and trailing
whitespace.  (Written over the character list so that the kernel can
evaluate it on concrete inputs.) -/
def trimWS (s : String) : String :=
  ⟨((s.data.dropWhile Char.isWhitespace).reverse.dropWhile Char.isWhitespace).reverse⟩

/-- The counting condition of `checkImageAccessibility`:
`role !== 'presentation' && role !== 'none' && (!alt || alt.trim() === '')`.
In JavaScript `!alt` holds when the attribute is `null` or the empty
string. -/
def imgMissingAlt (img : ImgAttrs) : Bool :=
  img.role != some "presentation" && img.role != some "none" &&
    (match img.alt with
     | none => true
     | some a => a == "" || trimWS a == "")

structure ImageAccessibilityResult where
  totalImages : Nat
  imagesWithoutAlt : Nat
  percentageWithoutAlt : ℚ
  deriving Repr, DecidableEq

/-- The check `checkImageAccessibility` over the list of image attribute pairs, in
page order.  The JavaScript percentage arithmetic is modelled exactly over
the rationals. -/
def checkImageAccessibility (images : List ImgAttrs) : ImageAccessibilityResult :=
  let imagesWithoutAlt : Nat :=
    images.foldl (fun n img => if imgMissingAlt img then n + 1 else n) 0
  let totalImages := images.length
  let percentageWithoutAlt : ℚ :=
    if 0 < totalImages then ((imagesWithoutAlt : ℚ) / (totalImages : ℚ)) * 100 else 0
  { totalImages := totalImages, imagesWithoutAlt := imagesWithoutAlt,
    percentageWithoutAlt := percentageWithoutAlt }

/-- The image list of the spec's worked example: an empty alt, a good alt,
and a decorative image with `role="presentation"` and no alt. -/
def exampleImages : List ImgAttrs :=
  [{ alt := some "", role := none }, { alt := some "cat", role := none },
   { alt := none, role := some "presentation" }]

/-! ### Audit rule filtering (`runAxe`)

`runAxe` resolves `tags` / `includeRules` / `excludeRules` (caller options
take precedence over the configuration defaults), builds the exclude set,
and passes `includeRules.filter((r) => !excludeRules.has(r))` to the audit
engine builder.  The set is modelled by list membership. -/

def runAxeEffectiveRules (includeRules excludeRules : List String) : List String :=
  includeRules.filter (fun r => !(excludeRules.contains r))

/-! ### ARIA implementation check (`TestHelpers.checkARIAImplementation`)

The landmark count comes from a separate locator count; the role-validity
loop reads the `role` attribute of every `[role]` element (possibly `null`
or empty) and flags any non-empty value whose lowercasing is not in the
fixed allow-list. -/

def validRoles : List String :=
  ["button", "link", "navigation", "main", "banner", "contentinfo",
   "complementary", "search", "form", "dialog", "alert", "status",
   "tablist", "tab", "tabpanel", "menu", "menuitem", "listbox", "option",
   "progressbar", "slider", "spinbutton", "textbox", "checkbox", "radio",
   "img", "presentation", "none", "region", "article", "section"]

structure ARIAResult where
  landmarks : Nat
  validRoles : Bool
  issues : List String
  deriving Repr, DecidableEq

def invalidRoleMsg (role : String) : String := s!"Invalid ARIA role: {role}"

/-- JavaScript `String.prototype.toLowerCase`, written over the character
list so that the kernel can evaluate it on concrete inputs. -/
def lowerStr (s : String) : String := ⟨s.data.map Char.toLower⟩

/-- One step of the role-validity loop: `if (role && !validRoles.includes
(role.toLowerCase()))` push an issue and clear the aggregate flag. -/
def ariaStep (acc : List String × Bool) (role : Option String) : List String × Bool :=
  match role with
  | none => acc
  | some r =>
      if r != "" && !(validRoles.contains (lowerStr r))
      then (acc.1 ++ [invalidRoleMsg r], false)
      else acc

/-- The check `checkARIAImplementation`, taking the landmark locator count and the
`role` attribute values of all `[role]` elements in page order. -/
def checkARIAImplementation (landmarkCount : Nat) (roles : List (Option String)) :
    ARIAResult :=
  let loop := roles.foldl ariaStep ([], true)
  { landmarks := landmarkCount, validRoles := loop.2, issues := loop.1 }

/-! ### Keyboard navigation check (`BasePage.testKeyboardNavigation`,
`TestHelpers.testKeyboardNavigation`)

The loop presses Tab up to `min(focusableElements.length, maxElements)`
times; after each press it checks that the `:focus` element is visible,
incrementing the counter on success and breaking out on the first failure.
The browser observation "`:focus` is visible after the i-th Tab press" is
an oracle `focusVisible : Nat → Bool`. -/

structure KeyboardNavResult where
  success : Bool
  navigatedElements : Nat
  deriving Repr, DecidableEq

/-- The Tab loop: starting at press index `i` with `remaining` iterations
left, count the presses whose focus check succeeds, stopping at the first
failure. -/
def tabLoop (focusVisible : Nat → Bool) : Nat → Nat → Nat
  | _, 0 => 0
  | i, remaining + 1 =>
      if focusVisible i then tabLoop focusVisible (i + 1) remaining + 1 else 0

/-- The check `testKeyboardNavigation`, over the number of focusable elements found
on the page, the `maxElements` bound (default 5 at the call sites) and the
focus-visibility oracle. -/
def testKeyboardNavigation (focusVisible : Nat → Bool) (numFocusable maxElements : Nat) :
    KeyboardNavResult :=
  let navigatedElements :=
    if 0 < numFocusable then tabLoop focusVisible 0 (min numFocusable maxElements) else 0
  { success := 0 < navigatedElements, navigatedElements := navigatedElements }

/-! ### Client error aggregation (`test-fixtures.ts`)

The three fixtures attach independent listeners to one page session and
push formatted strings into per-test buckets; `expectNoClientErrors` then
soft-asserts each bucket empty, independently.  A session is modelled as
the sequence of client events the browser runtime delivers. -/

structure ErrorBuckets where
  consoleErrors : List String
  pageErrors : List String
  requestFailures : List String
  deriving Repr, DecidableEq

/-- A JavaScript `Error` as delivered to a `pageerror` listener: a message
and an optional stack trace. -/
structure JsError where
  message : String
  stack : Option String
  deriving Repr, DecidableEq

inductive ClientEvent where
  | consoleMsg (msgType : String) (text : String)
  | pageError (err : JsError)
  | requestFailed (errorText : String) (url : String)
  deriving Repr, DecidableEq

/-- The `pageErrors` fixture listener: `bucket.push(`[pageerror]
${err.message}`)`. -/
def pageErrorFixtureEntry (err : JsError) : String :=
  s!"[pageerror] {err.message}"

/-- What the three fixture listeners do with one delivered event. -/
def recordEvent (b : ErrorBuckets) : ClientEvent → ErrorBuckets
  | .consoleMsg msgType text =>
      if msgType == "error"
      then { b with consoleErrors := b.consoleErrors ++ [s!"[console.{msgType}] {text}"] }
      else b
  | .pageError err =>
      { b with pageErrors := b.pageErrors ++ [pageErrorFixtureEntry err] }
  | .requestFailed errorText url =>
      { b with requestFailures := b.requestFailures ++ [s!"[requestfailed {errorText}] {url}"] }

def emptyBuckets : ErrorBuckets := { consoleErrors := [], pageErrors := [], requestFailures := [] }

/-- The buckets at the end of a test run that delivered `events`, in
order, to the fixture listeners (all three buckets start empty). -/
def captureRun (events : List ClientEvent) : ErrorBuckets :=
  events.foldl recordEvent emptyBuckets

/-- Outcome of the three soft assertions of `expectNoClientErrors`: each
bucket is independently compared with `[]`, and a soft-assertion failure
does not stop the following assertions from running. -/
structure SoftAssertOutcome where
  consolePass : Bool
  pagePass : Bool
  requestPass : Bool
  deriving Repr, DecidableEq

def expectNoClientErrors (b : ErrorBuckets) : SoftAssertOutcome :=
  { consolePass := b.consoleErrors == []
  , pagePass := b.pageErrors == []
  , requestPass := b.requestFailures == [] }

/-! ### Extended `pageerror` handler (`console-message.spec.ts`)

The comprehensive console-monitoring test registers its own `pageerror`
handler that records a structured entry with the message, the stack, and a
location derived from the first stack line, with the `'No location'`
placeholder when the stack is absent or yields no line. -/

structure PageErrorRecord where
  typ : String
  text : String
  location : String
  stack : Option String
  deriving Repr, DecidableEq

/-- The entry pushed by the extended handler:
`{ type: 'uncaught exception', text: error.message,
location: error.stack?.split('\n')[0] || 'No location',
stack: error.stack, ... }`. -/
def pageErrorRecord (err : JsError) : PageErrorRecord :=
  { typ := "uncaught exception"
  , text := err.message
  , location :=
      match err.stack with
      | none => "No location"
      | some s =>
          let l := (s.splitOn "\n").headD ""
          if l == "" then "No location" else l
  , stack := err.stack }

/-- The `pageErrors` fixture bucket after a run that delivered exactly the
uncaught exceptions `errors`, in order (each `pageerror` event appends one
entry). -/
def pageErrorsBucket (errors : List JsError) : List String :=
  errors.map pageErrorFixtureEntry

/-! ### Spec-side predicates and per-event/per-element views used to state
the claims -/

/-- The missing-alt rule in the spec's words: an image counts as missing
alt exactly when its role is neither `presentation` nor `none` and it
additionally either has no alt attribute or an alt attribute that is empty
or whitespace-only. -/
def MissingAltSpec (img : ImgAttrs) : Prop :=
  (img.role ≠ some "presentation" ∧ img.role ≠ some "none") ∧
    (img.alt = none ∨ ∃ a, img.alt = some a ∧ (a = "" ∨ trimWS a = ""))

/-- The issues one `[role]` element contributes in the ARIA loop. -/
def roleIssueList (role : Option String) : List String :=
  match role with
  | none => []
  | some r =>
      if r != "" && !(validRoles.contains (lowerStr r)) then [invalidRoleMsg r] else []

/-- The entry (if any) the `consoleErrors` fixture listener appends for one
event. -/
def consoleEntryOf : ClientEvent → Option String
  | .consoleMsg msgType text =>
      if msgType == "error" then some s!"[console.{msgType}] {text}" else none
  | _ => none

/-- The entry (if any) the `pageErrors` fixture listener appends for one
event. -/
def pageEntryOf : ClientEvent → Option String
  | .pageError err => some (pageErrorFixtureEntry err)
  | _ => none

/-- The entry (if any) the `requestFailures` fixture listener appends for
one event. -/
def requestEntryOf : ClientEvent → Option String
  | .requestFailed errorText url => some s!"[requestfailed {errorText}] {url}"
  | _ => none

def isUncaughtException : ClientEvent → Bool
  | .pageError _ => true
  | _ => false

def isConsoleError : ClientEvent → Bool
  | .consoleMsg msgType _ => msgType == "error"
  | _ => false

def isFailedRequest : ClientEvent → Bool
  | .requestFailed _ _ => true
  | _ => false

/-! ## Helper lemmas -/

lemma headingJumpMsg_ne_firstHeadingMsg (a b : Nat) :
    headingJumpMsg a b ≠ firstHeadingMsg := by
  intro h
  have hl := congrArg String.length h
  simp [headingJumpMsg, firstHeadingMsg, String.length_append] at hl
  have h1 : (toString "Heading levels should not skip more than one level (").length = 52 := rfl
  have h2 : (toString " -> ").length = 4 := rfl
  have h3 : (toString ")").length = 1 := rfl
  have h4 : ("First heading should be h1-h3" : String).length = 29 := rfl
  omega

lemma mem_pairwiseJumpIssues {x : String} :
    ∀ {l : List Nat}, x ∈ pairwiseJumpIssues l → ∃ a b, x = headingJumpMsg a b := by
  intro l
  induction l with
  | nil => intro h; simp [pairwiseJumpIssues] at h
  | cons a rest ih =>
      cases rest with
      | nil => intro h; simp [pairwiseJumpIssues] at h
      | cons b rest2 =>
          intro h
          rw [pairwiseJumpIssues] at h
          rcases List.mem_append.1 h with h1 | h2
          · by_cases hc : 2 < ((b : Int) - (a : Int)).natAbs
            · simp [hc] at h1
              exact ⟨a, b, h1⟩
            · simp [hc] at h1
          · exact ih h2

lemma pairwiseJumpIssues_length :
    ∀ l : List Nat,
      (pairwiseJumpIssues l).length
        = (l.zip l.tail).countP (fun p => decide (2 < ((p.2 : Int) - (p.1 : Int)).natAbs)) := by
  intro l
  induction l with
  | nil => simp [pairwiseJumpIssues]
  | cons a rest ih =>
      cases rest with
      | nil => simp [pairwiseJumpIssues]
      | cons b rest2 =>
          rw [pairwiseJumpIssues]
          simp only [List.zip_cons_cons, List.tail_cons, List.countP_cons] at *
          by_cases hc : 2 < ((b : Int) - (a : Int)).natAbs
          · simp [hc, ih]
          · simp [hc, ih]

lemma foldl_count_if {α : Type} (p : α → Bool) :
    ∀ (l : List α) (n : Nat),
      l.foldl (fun n a => if p a then n + 1 else n) n = n + l.countP p := by
  intro l
  induction l with
  | nil => simp
  | cons a rest ih =>
      intro n
      by_cases hp : p a <;> simp [List.countP_cons, hp, ih] <;> omega

lemma checkImageAccessibility_count (images : List ImgAttrs) :
    (checkImageAccessibility images).imagesWithoutAlt = images.countP imgMissingAlt := by
  simp [checkImageAccessibility, foldl_count_if]

lemma checkImageAccessibility_pct (images : List ImgAttrs) :
    (checkImageAccessibility images).percentageWithoutAlt
      = (if 0 < (checkImageAccessibility images).totalImages
         then ((checkImageAccessibility images).imagesWithoutAlt : ℚ)
                / ((checkImageAccessibility images).totalImages : ℚ) * 100
         else 0) := by
  simp [checkImageAccessibility]

lemma imgMissingAlt_iff (img : ImgAttrs) :
    imgMissingAlt img = true ↔ MissingAltSpec img := by
  obtain ⟨alt, role⟩ := img
  cases alt <;>
    simp [imgMissingAlt, MissingAltSpec, Bool.and_eq_true, bne_iff_ne, and_assoc]

lemma checkHeadingHierarchy_isValid_iff (levels : List Nat) :
    (checkHeadingHierarchy levels).isValid = true ↔
      (checkHeadingHierarchy levels).issues = [] := by
  cases levels <;> simp [checkHeadingHierarchy, List.length_eq_zero]

lemma ariaFold_issues :
    ∀ (roles : List (Option String)) (acc : List String × Bool),
      (roles.foldl ariaStep acc).1 = acc.1 ++ roles.flatMap roleIssueList := by
  intro roles
  induction roles with
  | nil => simp
  | cons r rest ih =>
      intro acc
      cases r with
      | none => simp [ariaStep, roleIssueList, ih]
      | some s =>
          by_cases hc : ¬s = "" ∧ lowerStr s ∉ validRoles <;>
            simp [ariaStep, roleIssueList, hc, ih]

lemma ariaFold_flag :
    ∀ (roles : List (Option String)) (acc : List String × Bool),
      (roles.foldl ariaStep acc).2 = (acc.2 && (roles.flatMap roleIssueList).isEmpty) := by
  intro roles
  induction roles with
  | nil => simp
  | cons r rest ih =>
      intro acc
      cases r with
      | none => simp [ariaStep, roleIssueList, ih]
      | some s =>
          by_cases hc : ¬s = "" ∧ lowerStr s ∉ validRoles <;>
            simp [ariaStep, roleIssueList, hc, ih]

lemma captureRun_buckets :
    ∀ (events : List ClientEvent) (b : ErrorBuckets),
      (events.foldl recordEvent b).consoleErrors
          = b.consoleErrors ++ events.filterMap consoleEntryOf
      ∧ (events.foldl recordEvent b).pageErrors
          = b.pageErrors ++ events.filterMap pageEntryOf
      ∧ (events.foldl recordEvent b).requestFailures
          = b.requestFailures ++ events.filterMap requestEntryOf := by
  intro events
  induction events with
  | nil => simp
  | cons e rest ih =>
      intro b
      cases e with
      | consoleMsg msgType text =>
          by_cases ht : msgType = "error" <;>
            simp [recordEvent, consoleEntryOf, pageEntryOf, requestEntryOf, ht, ih]
      | pageError err =>
          simp [recordEvent, consoleEntryOf, pageEntryOf, requestEntryOf, ih]
      | requestFailed errorText url =>
          simp [recordEvent, consoleEntryOf, pageEntryOf, requestEntryOf, ih]

lemma captureRun_eq (events : List ClientEvent) :
    (captureRun events).consoleErrors = events.filterMap consoleEntryOf
    ∧ (captureRun events).pageErrors = events.filterMap pageEntryOf
    ∧ (captureRun events).requestFailures = events.filterMap requestEntryOf := by
  have h := captureRun_buckets events emptyBuckets
  simpa [captureRun, emptyBuckets] using h

lemma length_filterMap_eq_countP {α β : Type} (f : α → Option β) (p : α → Bool)
    (h : ∀ a, (f a).isSome = p a) :
    ∀ l : List α, (l.filterMap f).length = l.countP p := by
  intro l
  induction l with
  | nil => simp
  | cons a rest ih =>
      have ha := h a
      cases hf : f a with
      | none =>
          rw [hf] at ha
          simp [List.filterMap_cons, hf, List.countP_cons, ih, ← ha]
      | some v =>
          rw [hf] at ha
          simp [List.filterMap_cons, hf, List.countP_cons, ih, ← ha]

lemma consoleEntryOf_isSome (e : ClientEvent) :
    (consoleEntryOf e).isSome = isConsoleError e := by
  cases e with
  | consoleMsg msgType text =>
      by_cases ht : msgType = "error" <;> simp [consoleEntryOf, isConsoleError, ht]
  | pageError err => rfl
  | requestFailed errorText url => rfl

lemma pageEntryOf_isSome (e : ClientEvent) :
    (pageEntryOf e).isSome = isUncaughtException e := by
  cases e <;> rfl

lemma requestEntryOf_isSome (e : ClientEvent) :
    (requestEntryOf e).isSome = isFailedRequest e := by
  cases e <;> rfl

/-! ## Claim theorems -/

/-- C1: `checkHeadingHierarchy` flags a first-heading issue iff the heading
sequence is non-empty and its first level exceeds 3, flags one issue per
consecutive pair whose absolute level difference exceeds 2, and returns
`isValid = true` with an empty issue list exactly when no issue is
flagged; `[1, 4]` (difference 3) is flagged while `[1, 3]` (difference 2)
is not. -/
theorem checkHeadingHierarchy_spec (levels : List Nat) :
    (firstHeadingMsg ∈ (checkHeadingHierarchy levels).issues ↔
      levels ≠ [] ∧ 3 < levels.headD 0)
    ∧ (checkHeadingHierarchy levels).issues.length
        = (if 3 < levels.headD 0 then 1 else 0)
          + (levels.zip levels.tail).countP
              (fun p => decide (2 < ((p.2 : Int) - (p.1 : Int)).natAbs))
    ∧ ((checkHeadingHierarchy levels).isValid = true ↔
        (checkHeadingHierarchy levels).issues = [])
    ∧ (checkHeadingHierarchy [1, 4]).isValid = false
    ∧ (checkHeadingHierarchy [1, 4]).issues.length = 1
    ∧ checkHeadingHierarchy [1, 3] = { isValid := true, issues := [] } := by
  refine ⟨?_, ?_, checkHeadingHierarchy_isValid_iff levels, rfl, rfl, rfl⟩
  · cases levels with
    | nil => simp [checkHeadingHierarchy]
    | cons first rest =>
        have hjump : firstHeadingMsg ∉ pairwiseJumpIssues (first :: rest) := by
          intro hm
          obtain ⟨a, b, hab⟩ := mem_pairwiseJumpIssues hm
          exact headingJumpMsg_ne_firstHeadingMsg a b hab.symm
        by_cases hf : 3 < first <;> simp [checkHeadingHierarchy, hf, hjump]
  · cases levels with
    | nil => simp [checkHeadingHierarchy, pairwiseJumpIssues]
    | cons first rest =>
        by_cases hf : 3 < first <;>
          simp [checkHeadingHierarchy, hf, pairwiseJumpIssues_length] <;> omega

/-- C2: in `checkImageAccessibility`, an image counts as missing alt
exactly when its role is neither `presentation` nor `none` and it either
has no alt attribute or an alt attribute that is empty or whitespace-only,
and `imagesWithoutAlt` is the number of images so counted. -/
theorem checkImageAccessibility_missing_rule (images : List ImgAttrs) :
    (checkImageAccessibility images).imagesWithoutAlt = images.countP imgMissingAlt
    ∧ (∀ img : ImgAttrs, imgMissingAlt img = true ↔ MissingAltSpec img) :=
  ⟨checkImageAccessibility_count images, imgMissingAlt_iff⟩

/-- C3: on the three-image list of the spec's example, the check reports 3
total images, 1 missing alt, and a missing percentage of 100/3. -/
theorem checkImageAccessibility_example :
    checkImageAccessibility exampleImages
      = { totalImages := 3, imagesWithoutAlt := 1, percentageWithoutAlt := 100 / 3 } := by
  have htotal : (checkImageAccessibility exampleImages).totalImages = 3 := rfl
  have hcount : (checkImageAccessibility exampleImages).imagesWithoutAlt = 1 := by decide
  have hpct : (checkImageAccessibility exampleImages).percentageWithoutAlt = 100 / 3 := by
    rw [checkImageAccessibility_pct, htotal, hcount]
    norm_num
  rw [show checkImageAccessibility exampleImages
      = ({ totalImages := (checkImageAccessibility exampleImages).totalImages,
           imagesWithoutAlt := (checkImageAccessibility exampleImages).imagesWithoutAlt,
           percentageWithoutAlt :=
             (checkImageAccessibility exampleImages).percentageWithoutAlt } :
        ImageAccessibilityResult) from rfl, htotal, hcount, hpct]

/-- C4: for every image list, `imagesWithoutAlt` is at most `totalImages`,
the missing percentage lies in `[0, 100]`, equals
`imagesWithoutAlt / totalImages * 100` when `totalImages` is positive, and
is 0 when `totalImages` is 0. -/
theorem checkImageAccessibility_invariants (images : List ImgAttrs) :
    (checkImageAccessibility images).imagesWithoutAlt
        ≤ (checkImageAccessibility images).totalImages
    ∧ 0 ≤ (checkImageAccessibility images).percentageWithoutAlt
    ∧ (checkImageAccessibility images).percentageWithoutAlt ≤ 100
    ∧ (checkImageAccessibility images).percentageWithoutAlt
        = (if 0 < (checkImageAccessibility images).totalImages
           then ((checkImageAccessibility images).imagesWithoutAlt : ℚ)
                  / ((checkImageAccessibility images).totalImages : ℚ) * 100
           else 0) := by
  have hle : (checkImageAccessibility images).imagesWithoutAlt
      ≤ (checkImageAccessibility images).totalImages := by
    rw [checkImageAccessibility_count]
    exact List.countP_le_length imgMissingAlt
  have hpct := checkImageAccessibility_pct images
  refine ⟨hle, ?_, ?_, hpct⟩
  · rw [hpct]
    split
    · positivity
    · exact le_refl 0
  · rw [hpct]
    split
    · rename_i ht
      have ht0 : (0 : ℚ) < ((checkImageAccessibility images).totalImages : ℚ) := by
        exact_mod_cast ht
      have hdiv : ((checkImageAccessibility images).imagesWithoutAlt : ℚ)
          / ((checkImageAccessibility images).totalImages : ℚ) ≤ 1 :=
        (div_le_one ht0).mpr (by exact_mod_cast hle)
      calc ((checkImageAccessibility images).imagesWithoutAlt : ℚ)
              / ((checkImageAccessibility images).totalImages : ℚ) * 100
            ≤ 1 * 100 := by
              exact mul_le_mul_of_nonneg_right hdiv (by norm_num)
        _ = 100 := by norm_num
    · norm_num

/-- C5: the rule list `runAxe` hands to the audit engine is exactly the
`includeRules` list with every rule id in `excludeRules` removed, in the
original order (so exclusion takes precedence over inclusion); for
`includeRules = ["a", "b", "c"]` and `excludeRules = {"b"}` it is exactly
`["a", "c"]`. -/
theorem runAxe_rule_filter_spec (includeRules excludeRules : List String) :
    (runAxeEffectiveRules includeRules excludeRules).Sublist includeRules
    ∧ (∀ r, r ∈ runAxeEffectiveRules includeRules excludeRules ↔
        r ∈ includeRules ∧ r ∉ excludeRules)
    ∧ runAxeEffectiveRules ["a", "b", "c"] ["b"] = ["a", "c"] := by
  refine ⟨List.filter_sublist _, ?_, by decide⟩
  intro r
  simp [runAxeEffectiveRules, List.mem_filter, List.contains, List.elem_iff]

/-- C6: in `checkARIAImplementation`, elements whose role lowercases into
the fixed allow-list contribute no issue; an element with role `"foo"`
makes the result contain the issue string naming `foo` and forces
`validRoles = false`; and `validRoles` is true iff the issue list is
empty. -/
theorem checkARIAImplementation_spec (lc : Nat) (roles : List (Option String)) :
    (checkARIAImplementation lc roles).issues = roles.flatMap roleIssueList
    ∧ (∀ r : String, validRoles.contains (lowerStr r) = true → roleIssueList (some r) = [])
    ∧ (some "foo" ∈ roles →
        invalidRoleMsg "foo" ∈ (checkARIAImplementation lc roles).issues
        ∧ (checkARIAImplementation lc roles).validRoles = false)
    ∧ ((checkARIAImplementation lc roles).validRoles = true ↔
        (checkARIAImplementation lc roles).issues = []) := by
  have hiss : (checkARIAImplementation lc roles).issues = roles.flatMap roleIssueList := by
    simp [checkARIAImplementation, ariaFold_issues]
  have hflag : (checkARIAImplementation lc roles).validRoles
      = (roles.flatMap roleIssueList).isEmpty := by
    simp [checkARIAImplementation, ariaFold_flag]
  refine ⟨hiss, ?_, ?_, ?_⟩
  · intro r h
    have hm : lowerStr r ∈ validRoles := List.elem_iff.mp h
    simp [roleIssueList, hm]
  · intro hfoo
    have hfi : roleIssueList (some "foo") = [invalidRoleMsg "foo"] := by decide
    have hmem : invalidRoleMsg "foo" ∈ roles.flatMap roleIssueList :=
      List.mem_flatMap.mpr ⟨some "foo", hfoo, by simp [hfi]⟩
    refine ⟨hiss ▸ hmem, ?_⟩
    rw [hflag, Bool.eq_false_iff]
    intro habs
    rw [List.isEmpty_iff] at habs
    rw [habs] at hmem
    exact absurd hmem (List.not_mem_nil _)
  · rw [hflag, hiss]
    exact List.isEmpty_iff

/-- Witness for the C6 theorem at `landmarkCount = 2` and roles
`[some "main", some "foo"]`, with `"MAIN"` as the allow-listed role. -/
theorem checkARIAImplementation_spec_witness :
    validRoles.contains (lowerStr "MAIN") = true
    ∧ roleIssueList (some "MAIN") = []
    ∧ some "foo" ∈ [some "main", some "foo"]
    ∧ invalidRoleMsg "foo" ∈ (checkARIAImplementation 2 [some "main", some "foo"]).issues
    ∧ (checkARIAImplementation 2 [some "main", some "foo"]).validRoles = false :=
  ⟨by decide,
   (checkARIAImplementation_spec 2 [some "main", some "foo"]).2.1 "MAIN" (by decide),
   by decide,
   ((checkARIAImplementation_spec 2 [some "main", some "foo"]).2.2.1 (by decide)).1,
   ((checkARIAImplementation_spec 2 [some "main", some "foo"]).2.2.1 (by decide)).2⟩

/-- C7: `testKeyboardNavigation` on a page with zero focusable elements
returns `success = false` and `navigatedElements = 0`, and for every input
`success` is true iff `navigatedElements` is positive. -/
theorem testKeyboardNavigation_spec (focusVisible : Nat → Bool) (n maxE : Nat) :
    testKeyboardNavigation focusVisible 0 maxE
        = { success := false, navigatedElements := 0 }
    ∧ ((testKeyboardNavigation focusVisible n maxE).success = true
        ↔ 0 < (testKeyboardNavigation focusVisible n maxE).navigatedElements) := by
  refine ⟨rfl, ?_⟩
  simp [testKeyboardNavigation]

/-- C8: `expectNoClientErrors` asserts the three error buckets
independently with soft assertions, so a run that captures exactly one
uncaught exception and no console errors and no failed requests yields
`pageErrors` of length 1, empty `consoleErrors` and `requestFailures`, a
passing console and network assertion, and a failing page-error
assertion. -/
theorem expectNoClientErrors_spec (events : List ClientEvent)
    (h1 : events.countP isUncaughtException = 1)
    (h2 : events.countP isConsoleError = 0)
    (h3 : events.countP isFailedRequest = 0) :
    (captureRun events).pageErrors.length = 1
    ∧ (captureRun events).consoleErrors.length = 0
    ∧ (captureRun events).requestFailures.length = 0
    ∧ expectNoClientErrors (captureRun events)
        = { consolePass := true, pagePass := false, requestPass := true } := by
  obtain ⟨hc, hp, hr⟩ := captureRun_eq events
  have hlp : (captureRun events).pageErrors.length = 1 := by
    rw [hp, length_filterMap_eq_countP pageEntryOf isUncaughtException pageEntryOf_isSome, h1]
  have hlc : (captureRun events).consoleErrors.length = 0 := by
    rw [hc, length_filterMap_eq_countP consoleEntryOf isConsoleError consoleEntryOf_isSome, h2]
  have hlr : (captureRun events).requestFailures.length = 0 := by
    rw [hr, length_filterMap_eq_countP requestEntryOf isFailedRequest requestEntryOf_isSome, h3]
  refine ⟨hlp, hlc, hlr, ?_⟩
  have hce : (captureRun events).consoleErrors = [] := List.length_eq_zero.mp hlc
  have hre : (captureRun events).requestFailures = [] := List.length_eq_zero.mp hlr
  have hpe : (captureRun events).pageErrors ≠ [] := by
    intro h0
    rw [h0] at hlp
    simp at hlp
  simp [expectNoClientErrors, hce, hre, hpe]

/-- Witness for the C8 theorem: a run delivering exactly one uncaught
exception and nothing else. -/
theorem expectNoClientErrors_spec_witness :
    ([ClientEvent.pageError { message := "boom", stack := none }].countP
        isUncaughtException = 1)
    ∧ ([ClientEvent.pageError { message := "boom", stack := none }].countP
        isConsoleError = 0)
    ∧ ([ClientEvent.pageError { message := "boom", stack := none }].countP
        isFailedRequest = 0)
    ∧ ((captureRun [ClientEvent.pageError { message := "boom", stack := none }]).pageErrors.length = 1
        ∧ (captureRun [ClientEvent.pageError { message := "boom", stack := none }]).consoleErrors.length = 0
        ∧ (captureRun [ClientEvent.pageError { message := "boom", stack := none }]).requestFailures.length = 0
        ∧ expectNoClientErrors (captureRun [ClientEvent.pageError { message := "boom", stack := none }])
            = { consolePass := true, pagePass := false, requestPass := true }) :=
  ⟨by decide, by decide, by decide,
   expectNoClientErrors_spec [ClientEvent.pageError { message := "boom", stack := none }]
     (by decide) (by decide) (by decide)⟩

/-- C9 counterexample: the minimal `pageErrors` fixture listener appends
the entry `"[pageerror] boom"` for an exception carrying a stack trace —
the very same entry it appends when the exception has no stack, and the
stack trace is not contained in the entry, so the appended entry does not
capture the stack trace. -/
theorem pageErrorFixtureEntry_no_stack :
    pageErrorFixtureEntry
        { message := "boom", stack := some "Error: boom\n    at f (app.js:1:1)" }
      = pageErrorFixtureEntry { message := "boom", stack := none }
    ∧ pageErrorFixtureEntry
        { message := "boom", stack := some "Error: boom\n    at f (app.js:1:1)" }
      = "[pageerror] boom"
    ∧ ¬ ("Error: boom\n    at f (app.js:1:1)".data
          <:+: (pageErrorFixtureEntry
                  { message := "boom",
                    stack := some "Error: boom\n    at f (app.js:1:1)" }).data) := by
  refine ⟨rfl, by decide, by decide⟩

/-- C9 amended: each `pageerror` listener appends exactly one entry per
unhandled exception and captures the exception's message; the extended
handler's record additionally captures the stack trace and uses the
`No location` placeholder when no stack is available, while the minimal
fixture entry consists of the message only. -/
theorem pageerror_listeners_amended (errors : List JsError) (err : JsError) :
    (pageErrorsBucket errors).length = errors.length
    ∧ pageErrorFixtureEntry err = "[pageerror] " ++ err.message
    ∧ (pageErrorRecord err).text = err.message
    ∧ (pageErrorRecord err).stack = err.stack
    ∧ (err.stack = none → (pageErrorRecord err).location = "No location") := by
  refine ⟨List.length_map _ _, ?_, rfl, rfl, ?_⟩
  · simp [pageErrorFixtureEntry, toString, String.append_empty]
  · intro h
    simp [pageErrorRecord, h]

/-- Witness for the amended C9 theorem at a concrete stackless
exception. -/
theorem pageerror_listeners_amended_witness :
    (pageErrorsBucket [{ message := "boom", stack := none }]).length = 1
    ∧ pageErrorFixtureEntry { message := "boom", stack := none } = "[pageerror] " ++ "boom"
    ∧ (pageErrorRecord { message := "boom", stack := none }).text = "boom"
    ∧ (pageErrorRecord { message := "boom", stack := none }).stack = none
    ∧ (pageErrorRecord { message := "boom", stack := none }).location = "No location" :=
  have h :=
    pageerror_listeners_amended [{ message := "boom", stack := none }]
      { message := "boom", stack := none }
  ⟨h.1, h.2.1, h.2.2.1, h.2.2.2.1, h.2.2.2.2 rfl⟩

/-- C10: for an empty heading sequence (a page with no `h1`–`h6`
elements), `checkHeadingHierarchy` returns `isValid = true` and an empty
issues list. -/
theorem checkHeadingHierarchy_empty :
    checkHeadingHierarchy [] = { isValid := true, issues := [] } := rfl

end A11y
